import Mathlib

/-!
Shallow embedding of the `grpcmetrics` Go package (files `grpcmetrics.go`
and `config.go`): a per-RPC metrics adapter bridging gRPC stats-handler
lifecycle callbacks into OpenTelemetry counters and histograms.

Modelling conventions:
* Go `int64` counters (mutated with `atomic.AddInt64`, which wraps in
  two's complement) are `Int` with an explicit wrap to the signed 64-bit
  range (`wrap64`).
* `context.Context` carrying the per-attempt `rpcInfo` is `Option RpcInfo`.
* A Go `error` value is `Option GoError`; `GoError.statusErr` is an error
  recognized by `status.FromError` (it carries a gRPC status), while
  `GoError.opaqueErr` is any other error, exposing only its `Error()` text.
* OpenTelemetry instruments are identified by their registered names; a
  call to `Add`/`Record` is a `Measurement` value, and `HandleRPC` returns
  the list of measurements it submits together with the list of
  diagnostics passed to `otel.Handle`.
* The duration histogram records wall-clock elapsed milliseconds
  (`time.Since(rs.BeginTime)`); real time is not modelled, so the
  corresponding measurement carries no value, only the fact that the
  duration instrument was recorded to with the derived attributes.
-/

namespace Grpcmetrics

/-- Signed 64-bit wrap-around, the overflow behaviour of Go `int64`. -/
def wrap64 (x : Int) : Int := (x + 2 ^ 63) % 2 ^ 64 - 2 ^ 63

/-- Go `atomic.AddInt64`: two's-complement addition on `int64`. -/
def addInt64 (a b : Int) : Int := wrap64 (a + b)

/-- `rpcInfo` from grpcmetrics.go: the per-attempt correlation record.
`fullMethodName` is set at `TagRPC` time; the four counters are the
atomically mutated message/byte tallies. -/
structure RpcInfo where
  fullMethodName : String
  sentMsgs : Int
  sentBytes : Int
  recvMsgs : Int
  recvBytes : Int
deriving Repr, DecidableEq

/-- `TagRPC`: attach a fresh correlation record (all counters zero) for
the attempt's full method name to the context. -/
def tagRPC (fullMethodName : String) : RpcInfo :=
  { fullMethodName := fullMethodName
    sentMsgs := 0, sentBytes := 0, recvMsgs := 0, recvBytes := 0 }

/-- A Go `error` as seen by `status.FromError`: either an error carrying a
structured gRPC status (code and message), or an opaque error exposing
only its `Error()` string. A `nil` Go error is `Option.none` at use sites. -/
inductive GoError where
  | statusErr (code : Nat) (msg : String)
  | opaqueErr (msg : String)
deriving Repr, DecidableEq

/-- The `Error()` string of a Go error. For a status error the gRPC
runtime formats code and description; only opaque errors' text is ever
consumed by this package, so the exact status-error format is irrelevant. -/
def GoError.errorString : GoError → String
  | .statusErr c m => "rpc error: code = " ++ toString c ++ " desc = " ++ m
  | .opaqueErr m => m

/-- A gRPC `*status.Status`: numeric code (`codes.Code`, a uint32) and
message. -/
structure Status where
  code : Nat
  message : String
deriving Repr, DecidableEq

/-- `codes.OK` -/
def codeOK : Nat := 0
/-- `codes.NotFound` -/
def codeNotFound : Nat := 5
/-- `codes.Internal` -/
def codeInternal : Nat := 13

/-- `codes.Code.String()` from google.golang.org/grpc/codes. -/
def codeString (c : Nat) : String :=
  match c with
  | 0 => "OK"
  | 1 => "Canceled"
  | 2 => "Unknown"
  | 3 => "InvalidArgument"
  | 4 => "DeadlineExceeded"
  | 5 => "NotFound"
  | 6 => "AlreadyExists"
  | 7 => "PermissionDenied"
  | 8 => "ResourceExhausted"
  | 9 => "FailedPrecondition"
  | 10 => "Aborted"
  | 11 => "OutOfRange"
  | 12 => "Unimplemented"
  | 13 => "Internal"
  | 14 => "Unavailable"
  | 15 => "DataLoss"
  | 16 => "Unauthenticated"
  | _ => "Code(" ++ toString c ++ ")"

/-- `status.FromError` restricted to non-nil errors: succeeds exactly on
errors that carry a structured gRPC status. -/
def statusFromError : GoError → Option Status
  | .statusErr c m => some { code := c, message := m }
  | .opaqueErr _ => none

/-- `var grpcStatusOK = status.New(codes.OK, "OK")` -/
def grpcStatusOK : Status := { code := codeOK, message := "OK" }

/-- `getRPCStatus` from grpcmetrics.go. -/
def getRPCStatus (err : Option GoError) : Status :=
  match err with
  | none => grpcStatusOK
  | some e =>
    match statusFromError e with
    | some s => s
    | none => { code := codeInternal, message := e.errorString }

/-- An OpenTelemetry attribute value (only int and string occur here). -/
inductive AttrValue where
  | int (i : Int)
  | str (s : String)
deriving Repr, DecidableEq

/-- An OpenTelemetry `attribute.KeyValue`. -/
structure KeyValue where
  key : String
  value : AttrValue
deriving Repr, DecidableEq

/-- Split a character list at every occurrence of `sep`. On the empty
list the result is `[[]]`, matching Go `strings.Split("", sep) = [""]`. -/
def splitChars (sep : Char) : List Char → List (List Char)
  | [] => [[]]
  | c :: rest =>
    let tail := splitChars sep rest
    if c = sep then [] :: tail
    else
      match tail with
      | [] => [[c]]
      | t :: ts => (c :: t) :: ts

/-- Go `strings.Split(s, sep)` for a single-character separator. -/
def goSplit (s : String) (sep : Char) : List String :=
  (splitChars sep s.data).map String.mk

/-- `getAttributes` from grpcmetrics.go: the derived attribute set.
`strings.Split(s, "/")` is `goSplit s` with separator `/`. -/
def getAttributes (fullMethodName : String) (err : Option GoError) : List KeyValue :=
  let rpcStatus := getRPCStatus err
  let attr : List KeyValue :=
    [ { key := "rpc.system", value := .str "grpc" }
    , { key := "rpc.grpc.status_code", value := .int (rpcStatus.code : Int) }
    , { key := "rpc.grpc.status", value := .str (codeString rpcStatus.code) } ]
  let parts := goSplit fullMethodName '/'
  if parts.length = 3 then
    attr ++
      [ { key := "rpc.service", value := .str (parts.getD 1 "") }
      , { key := "rpc.method", value := .str (parts.getD 2 "") } ]
  else
    attr

/-! ### Configuration and construction (config.go, `newHandler`) -/

/-- The outcome of asking the metrics backend to create an instrument:
`Except.ok` on success, `Except.error` carrying the backend's error. -/
abbrev CreateResult := Except String Unit

/-- A `metric.Meter`: the capability to create the instrument kinds this
package uses. Each creator receives the instrument name and unit and
either succeeds or rejects with an error (e.g. duplicate name with an
incompatible type). -/
structure Meter where
  int64Counter : String → String → CreateResult
  float64Histogram : String → String → CreateResult
  int64Histogram : String → String → CreateResult

/-- A `metric.MeterProvider`: yields a meter for an instrumentation
scope name. -/
def MeterProvider := String → Meter

/-- `config` from config.go. `meterProvider = none` models the nil
interface field before defaulting. -/
structure Config where
  meterProvider : Option MeterProvider
  instrumentationName : String
  instrumentSizes : Bool
  instrumentLatency : Bool

/-- The zero `config{}` newHandler starts from. -/
def Config.zero : Config :=
  { meterProvider := none, instrumentationName := ""
    instrumentSizes := false, instrumentLatency := false }

/-- An `Option` (config.go): `optionFunc` mutates the config in place;
modelled as a config transformer. -/
def GOption := Config → Config

/-- `WithInstrumentationName` -/
def withInstrumentationName (name : String) : GOption :=
  fun c => { c with instrumentationName := name }

/-- `WithMeterProvider` -/
def withMeterProvider (p : MeterProvider) : GOption :=
  fun c => { c with meterProvider := some p }

/-- `WithInstrumentSizes` -/
def withInstrumentSizes (instrumentSizes : Bool) : GOption :=
  fun c => { c with instrumentSizes := instrumentSizes }

/-- `WithInstrumentLatency` -/
def withInstrumentLatency (instrumentLatency : Bool) : GOption :=
  fun c => { c with instrumentLatency := instrumentLatency }

/-- The loop `for _, o := range options { o.apply(&c) }` over `config{}`. -/
def applyOptions (options : List GOption) : Config :=
  options.foldl (fun c o => o c) Config.zero

/-- `DefaultInstrumentationName` -/
def DefaultInstrumentationName : String := "github.com/mahboubii/grpcmetrics"

/-- `Handler` from grpcmetrics.go. Instruments are identified by their
registered names; the three optional histograms are `none` when the Go
field is nil (never created). -/
structure Handler where
  isClient : Bool
  rpcDuration : Option String
  rpcRequestSize : Option String
  rpcResponseSize : Option String
  rpcRequestsPerRPC : String
  rpcResponsesPerRPC : String
deriving Repr, DecidableEq

/-- The meter `newHandler` obtains: the configured provider (or the
process-wide global when unset) queried with the configured
instrumentation name (or `DefaultInstrumentationName` when unset);
grpcmetrics.go lines 111-120. -/
def configMeter (globalProvider : MeterProvider) (c : Config) : Meter :=
  (c.meterProvider.getD globalProvider)
    (if c.instrumentationName = "" then DefaultInstrumentationName
     else c.instrumentationName)

/-- The role-based metric-name root: `rpc.server`, overridden to
`rpc.client` for client handlers. -/
def rolePrefix (isClient : Bool) : String :=
  if isClient then "rpc.client" else "rpc.server"

/-- The instrument-creation part of `newHandler` (grpcmetrics.go lines
122-160): each `meter.…` call the Go code performs is made in the same
order, and the first backend error aborts construction with that error. -/
def newHandlerWith (meter : Meter) (isClient : Bool) (c : Config) :
    Except String Handler := do
  let pre := rolePrefix isClient
  let _ ← meter.int64Counter (pre ++ ".requests_per_rpc") "1"
  let _ ← meter.int64Counter (pre ++ ".responses_per_rpc") "1"
  let rpcDuration ←
    if c.instrumentLatency then do
      let _ ← meter.float64Histogram (pre ++ ".duration") "ms"
      pure (some (pre ++ ".duration"))
    else
      pure none
  let (rpcRequestSize, rpcResponseSize) ←
    if c.instrumentSizes then do
      let _ ← meter.int64Histogram (pre ++ ".request.size") "By"
      let _ ← meter.int64Histogram (pre ++ ".response.size") "By"
      pure (some (pre ++ ".request.size"), some (pre ++ ".response.size"))
    else
      pure (none, none)
  pure { isClient := isClient
         rpcDuration := rpcDuration
         rpcRequestSize := rpcRequestSize
         rpcResponseSize := rpcResponseSize
         rpcRequestsPerRPC := pre ++ ".requests_per_rpc"
         rpcResponsesPerRPC := pre ++ ".responses_per_rpc" }

/-- `newHandler` from grpcmetrics.go. `globalProvider` models
`global.MeterProvider()`, the process-wide default used when no
`WithMeterProvider` option was supplied. -/
def newHandler (globalProvider : MeterProvider) (isClient : Bool)
    (options : List GOption) : Except String Handler :=
  let c := applyOptions options
  newHandlerWith (configMeter globalProvider c) isClient c

/-- `NewServerHandler` -/
def newServerHandler (globalProvider : MeterProvider) (options : List GOption) :
    Except String Handler :=
  newHandler globalProvider false options

/-- `NewClientHandler` -/
def newClientHandler (globalProvider : MeterProvider) (options : List GOption) :
    Except String Handler :=
  newHandler globalProvider true options

/-! ### The lifecycle dispatcher (`HandleRPC`) -/

/-- `stats.RPCStats` variants dispatched by `HandleRPC`. Payload events
carry `rs.Length` (the payload byte length, a Go `int`). The `End` event
carries `rs.Error`; its `BeginTime` feeds only the wall-clock duration
measurement, which is not modelled as a value. `unknownStats` stands for
any `stats.RPCStats` implementation outside the switched-on set. -/
inductive RPCStats where
  | inHeader
  | outHeader
  | inTrailer
  | outTrailer
  | beginStats
  | inPayload (length : Int)
  | outPayload (length : Int)
  | endStats (error : Option GoError)
  | unknownStats (description : String)
deriving Repr, DecidableEq

/-- One submission to an instrument: a counter `Add`, an
`Int64Histogram.Record`, or a duration-histogram `Record` (whose
wall-clock value is not modelled). -/
inductive Measurement where
  | counterAdd (instrument : String) (value : Int) (attrs : List KeyValue)
  | histRecord (instrument : String) (value : Int) (attrs : List KeyValue)
  | durationRecord (instrument : String) (attrs : List KeyValue)
deriving Repr, DecidableEq

/-- The observable outcome of one `HandleRPC` call: the correlation
record left in the context (the pointer is never replaced, only its
counters mutated), the measurements submitted, and the diagnostics passed
to `otel.Handle`. -/
structure DispatchResult where
  info : Option RpcInfo
  measurements : List Measurement
  diagnostics : List String
deriving Repr, DecidableEq

/-- `HandleRPC` from grpcmetrics.go, as a function of the correlation
record found in the context (`none` when `getRPCInfo` returns nil). -/
def handleRPC (h : Handler) (ri : Option RpcInfo) (rs : RPCStats) : DispatchResult :=
  match ri with
  | none => { info := none, measurements := [], diagnostics := [] }
  | some ri =>
    match rs with
    | .inHeader | .outHeader | .inTrailer | .outTrailer =>
      { info := some ri, measurements := [], diagnostics := [] }
    | .beginStats =>
      { info := some ri, measurements := [], diagnostics := [] }
    | .inPayload length =>
      let ri := { ri with recvMsgs := addInt64 ri.recvMsgs 1 }
      let ri :=
        if (h.rpcRequestSize).isSome then
          { ri with recvBytes := addInt64 ri.recvBytes length }
        else ri
      { info := some ri, measurements := [], diagnostics := [] }
    | .outPayload length =>
      let ri := { ri with sentMsgs := addInt64 ri.sentMsgs 1 }
      let ri :=
        if (h.rpcResponseSize).isSome then
          { ri with sentBytes := addInt64 ri.sentBytes length }
        else ri
      { info := some ri, measurements := [], diagnostics := [] }
    | .endStats error =>
      let attrs := getAttributes ri.fullMethodName error
      let counterMs : List Measurement :=
        if h.isClient then
          [ .counterAdd h.rpcRequestsPerRPC ri.sentMsgs attrs
          , .counterAdd h.rpcResponsesPerRPC ri.recvMsgs attrs ]
        else
          [ .counterAdd h.rpcRequestsPerRPC ri.recvMsgs attrs
          , .counterAdd h.rpcResponsesPerRPC ri.sentMsgs attrs ]
      let durationMs : List Measurement :=
        match h.rpcDuration with
        | some inst => [.durationRecord inst attrs]
        | none => []
      let requestSizeMs : List Measurement :=
        match h.rpcRequestSize with
        | some inst =>
          if h.isClient then [.histRecord inst ri.sentBytes attrs]
          else [.histRecord inst ri.recvBytes attrs]
        | none => []
      let responseSizeMs : List Measurement :=
        match h.rpcResponseSize with
        | some inst =>
          if h.isClient then [.histRecord inst ri.recvBytes attrs]
          else [.histRecord inst ri.sentBytes attrs]
        | none => []
      { info := some ri
        measurements := counterMs ++ durationMs ++ requestSizeMs ++ responseSizeMs
        diagnostics := [] }
    | .unknownStats description =>
      { info := some ri, measurements := []
        diagnostics := ["received unhandled stats: " ++ description] }

/-- Fold `handleRPC` over an event sequence, accumulating measurements
and diagnostics in delivery order. -/
def processEvents (h : Handler) (ri : Option RpcInfo) (evs : List RPCStats) :
    DispatchResult :=
  match evs with
  | [] => { info := ri, measurements := [], diagnostics := [] }
  | ev :: rest =>
    let r := handleRPC h ri ev
    let r' := processEvents h r.info rest
    { info := r'.info
      measurements := r.measurements ++ r'.measurements
      diagnostics := r.diagnostics ++ r'.diagnostics }

/-! ### Auxiliary definitions used by the statements -/

/-- Is this event the terminal `*stats.End` event? -/
def RPCStats.isTerminal : RPCStats → Bool
  | .endStats _ => true
  | _ => false

/-- Number of inbound-payload events in a sequence. -/
def countIn (evs : List RPCStats) : Nat :=
  evs.countP fun e => match e with | .inPayload _ => true | _ => false

/-- Number of outbound-payload events in a sequence. -/
def countOut (evs : List RPCStats) : Nat :=
  evs.countP fun e => match e with | .outPayload _ => true | _ => false

/-- Does the attribute list contain an attribute with the given key? -/
def hasAttrKey (attrs : List KeyValue) (k : String) : Bool :=
  attrs.any fun kv => kv.key == k

/-- Modelled from the spec's words (not from the source), for comparison
with `getAttributes`: the method name splits into exactly two non-empty
segments separated by a slash after stripping a leading slash. -/
def specMethodShape (s : String) : Bool :=
  let cs := match s.data with
    | '/' :: rest => rest
    | cs => cs
  match splitChars '/' cs with
  | [a, b] => !a.isEmpty && !b.isEmpty
  | _ => false

/-- Is this measurement a counter `Add` (as opposed to a histogram or
duration `Record`)? -/
def Measurement.isCounterAdd : Measurement → Bool
  | .counterAdd _ _ _ => true
  | _ => false

/-- The value submitted by a counter `Add`, `none` for other
measurements. -/
def Measurement.addedCounterValue : Measurement → Option Int
  | .counterAdd _ v _ => some v
  | _ => none

/-- A metrics backend that accepts every instrument creation; used to
instantiate theorems at concrete inputs. -/
def okMeter : Meter :=
  { int64Counter := fun _ _ => .ok ()
    float64Histogram := fun _ _ => .ok ()
    int64Histogram := fun _ _ => .ok () }

/-- A meter provider yielding `okMeter` for every scope. -/
def okProvider : MeterProvider := fun _ => okMeter

/-- A metrics backend that rejects every histogram creation with a fixed
error while accepting counters; used to instantiate construction-failure
statements. -/
def noHistMeter : Meter :=
  { int64Counter := fun _ _ => .ok ()
    float64Histogram := fun _ _ => .error "histograms unsupported"
    int64Histogram := fun _ _ => .error "histograms unsupported" }

/-- A meter provider yielding `noHistMeter` for every scope. -/
def noHistProvider : MeterProvider := fun _ => noHistMeter

/-- A server-role handler with no optional histograms, as produced by
`newHandler okProvider false []`. -/
def serverHandler : Handler :=
  { isClient := false
    rpcDuration := none
    rpcRequestSize := none
    rpcResponseSize := none
    rpcRequestsPerRPC := "rpc.server.requests_per_rpc"
    rpcResponsesPerRPC := "rpc.server.responses_per_rpc" }

/-- A client-role handler with all optional histograms provisioned, as
produced by `newHandler okProvider true` with both flags enabled. -/
def clientHandlerFull : Handler :=
  { isClient := true
    rpcDuration := some "rpc.client.duration"
    rpcRequestSize := some "rpc.client.request.size"
    rpcResponseSize := some "rpc.client.response.size"
    rpcRequestsPerRPC := "rpc.client.requests_per_rpc"
    rpcResponsesPerRPC := "rpc.client.responses_per_rpc" }

/-! ### Supporting lemmas -/

theorem wrap64_wrap64_add (x y : Int) : wrap64 (wrap64 x + y) = wrap64 (x + y) := by
  unfold wrap64
  have h : (x + 2 ^ 63) % 2 ^ 64 - 2 ^ 63 + y + 2 ^ 63 = (x + 2 ^ 63) % 2 ^ 64 + y := by ring
  rw [h, Int.emod_add_emod]
  ring_nf

theorem wrap64_of_lt (x : Int) (h0 : 0 ≤ x + 2 ^ 63) (h1 : x + 2 ^ 63 < 2 ^ 64) :
    wrap64 x = x := by
  unfold wrap64
  rw [Int.emod_eq_of_lt h0 h1]
  ring

theorem wrap64_idem_of_nonneg (x : Int) (h0 : 0 ≤ x) (h1 : x < 2 ^ 63) :
    wrap64 x = x :=
  wrap64_of_lt x (by omega) (by omega)

theorem wrap64_zero : wrap64 0 = 0 := by decide

theorem wrap64_wrap64 (x : Int) : wrap64 (wrap64 x) = wrap64 x := by
  have := wrap64_wrap64_add x 0
  simpa using this

theorem addInt64_wrap (x y : Int) : wrap64 (addInt64 x y) = addInt64 x y := by
  simp [addInt64, wrap64_wrap64]

theorem processEvents_counts (h : Handler) (evs : List RPCStats) :
    ∀ ri : RpcInfo, (∀ e ∈ evs, e.isTerminal = false) →
      wrap64 ri.recvMsgs = ri.recvMsgs → wrap64 ri.sentMsgs = ri.sentMsgs →
      ∃ ri', (processEvents h (some ri) evs).info = some ri' ∧
        ri'.fullMethodName = ri.fullMethodName ∧
        ri'.recvMsgs = wrap64 (ri.recvMsgs + countIn evs) ∧
        ri'.sentMsgs = wrap64 (ri.sentMsgs + countOut evs) ∧
        (processEvents h (some ri) evs).measurements = [] := by
  induction evs with
  | nil =>
    intro ri _ hr hs
    refine ⟨ri, rfl, rfl, ?_, ?_, rfl⟩
    · simpa [countIn] using hr.symm
    · simpa [countOut] using hs.symm
  | cons e rest ih =>
    intro ri hterm hr hs
    have hterm' : ∀ x ∈ rest, x.isTerminal = false :=
      fun x hx => hterm x (List.mem_cons_of_mem _ hx)
    have hcountIn : ∀ len, (countIn (RPCStats.inPayload len :: rest) : Int) = countIn rest + 1 := by
      intro len; simp [countIn, List.countP_cons]
    have hcountOut : ∀ len, (countOut (RPCStats.outPayload len :: rest) : Int) = countOut rest + 1 := by
      intro len; simp [countOut, List.countP_cons]
    cases e with
    | inPayload len =>
      by_cases hq : (h.rpcRequestSize).isSome = true
      · obtain ⟨ri', p1, p2, p3, p4, p5⟩ :=
          ih { ri with recvMsgs := addInt64 ri.recvMsgs 1
                       recvBytes := addInt64 ri.recvBytes len } hterm'
            (by simpa using addInt64_wrap ri.recvMsgs 1) (by simpa using hs)
        dsimp only at p2 p3 p4
        refine ⟨ri', ?_, ?_, ?_, ?_, ?_⟩
        · simp only [processEvents, handleRPC, hq, if_true]
          exact p1
        · exact p2
        · rw [p3, hcountIn len]; unfold addInt64; rw [wrap64_wrap64_add]
          congr 1; ring
        · rw [p4]; simp [countOut, List.countP_cons]
        · simp only [processEvents, handleRPC, hq, if_true]
          simpa using p5
      · obtain ⟨ri', p1, p2, p3, p4, p5⟩ :=
          ih { ri with recvMsgs := addInt64 ri.recvMsgs 1 } hterm'
            (by simpa using addInt64_wrap ri.recvMsgs 1) (by simpa using hs)
        dsimp only at p2 p3 p4
        refine ⟨ri', ?_, ?_, ?_, ?_, ?_⟩
        · simp only [processEvents, handleRPC, hq, if_false]
          simpa using p1
        · exact p2
        · rw [p3, hcountIn len]; unfold addInt64; rw [wrap64_wrap64_add]
          congr 1; ring
        · rw [p4]; simp [countOut, List.countP_cons]
        · simp only [processEvents, handleRPC, hq, if_false]
          simpa using p5
    | outPayload len =>
      by_cases hq : (h.rpcResponseSize).isSome = true
      · obtain ⟨ri', p1, p2, p3, p4, p5⟩ :=
          ih { ri with sentMsgs := addInt64 ri.sentMsgs 1
                       sentBytes := addInt64 ri.sentBytes len } hterm'
            (by simpa using hr) (by simpa using addInt64_wrap ri.sentMsgs 1)
        dsimp only at p2 p3 p4
        refine ⟨ri', ?_, ?_, ?_, ?_, ?_⟩
        · simp only [processEvents, handleRPC, hq, if_true]
          exact p1
        · exact p2
        · rw [p3]; simp [countIn, List.countP_cons]
        · rw [p4, hcountOut len]; unfold addInt64; rw [wrap64_wrap64_add]
          congr 1; ring
        · simp only [processEvents, handleRPC, hq, if_true]
          simpa using p5
      · obtain ⟨ri', p1, p2, p3, p4, p5⟩ :=
          ih { ri with sentMsgs := addInt64 ri.sentMsgs 1 } hterm'
            (by simpa using hr) (by simpa using addInt64_wrap ri.sentMsgs 1)
        dsimp only at p2 p3 p4
        refine ⟨ri', ?_, ?_, ?_, ?_, ?_⟩
        · simp only [processEvents, handleRPC, hq, if_false]
          simpa using p1
        · exact p2
        · rw [p3]; simp [countIn, List.countP_cons]
        · rw [p4, hcountOut len]; unfold addInt64; rw [wrap64_wrap64_add]
          congr 1; ring
        · simp only [processEvents, handleRPC, hq, if_false]
          simpa using p5
    | endStats err =>
      have := hterm _ (List.mem_cons_self _ _)
      simp [RPCStats.isTerminal] at this
    | inHeader =>
      simpa [processEvents, handleRPC, countIn, countOut, List.countP_cons]
        using ih ri hterm' hr hs
    | outHeader =>
      simpa [processEvents, handleRPC, countIn, countOut, List.countP_cons]
        using ih ri hterm' hr hs
    | inTrailer =>
      simpa [processEvents, handleRPC, countIn, countOut, List.countP_cons]
        using ih ri hterm' hr hs
    | outTrailer =>
      simpa [processEvents, handleRPC, countIn, countOut, List.countP_cons]
        using ih ri hterm' hr hs
    | beginStats =>
      simpa [processEvents, handleRPC, countIn, countOut, List.countP_cons]
        using ih ri hterm' hr hs
    | unknownStats d =>
      simpa [processEvents, handleRPC, countIn, countOut, List.countP_cons]
        using ih ri hterm' hr hs


theorem processEvents_append (h : Handler) (ri : Option RpcInfo)
    (xs ys : List RPCStats) :
    processEvents h ri (xs ++ ys) =
      { info := (processEvents h (processEvents h ri xs).info ys).info
        measurements := (processEvents h ri xs).measurements ++
          (processEvents h (processEvents h ri xs).info ys).measurements
        diagnostics := (processEvents h ri xs).diagnostics ++
          (processEvents h (processEvents h ri xs).info ys).diagnostics } := by
  induction xs generalizing ri with
  | nil => simp [processEvents]
  | cons x xs ih => simp [processEvents, ih, List.append_assoc]


theorem exceptBind_eq_ok {α β : Type} (e : Except String α) (f : α → Except String β)
    (b : β) : (e >>= f = Except.ok b) ↔ ∃ a, e = Except.ok a ∧ f a = Except.ok b := by
  cases e <;> simp [Bind.bind, Except.bind]

theorem exceptBind_eq_error {α β : Type} (e : Except String α) (f : α → Except String β)
    (msg : String) :
    (e >>= f = Except.error msg) ↔
      e = Except.error msg ∨ ∃ a, e = Except.ok a ∧ f a = Except.error msg := by
  cases e <;> simp [Bind.bind, Except.bind]

theorem newHandlerWith_ok (meter : Meter) (b : Bool) (c : Config) (h : Handler)
    (hok : newHandlerWith meter b c = Except.ok h) :
    h.isClient = b ∧
    h.rpcRequestsPerRPC = rolePrefix b ++ ".requests_per_rpc" ∧
    h.rpcResponsesPerRPC = rolePrefix b ++ ".responses_per_rpc" ∧
    h.rpcDuration = (if c.instrumentLatency then some (rolePrefix b ++ ".duration") else none) ∧
    h.rpcRequestSize = (if c.instrumentSizes then some (rolePrefix b ++ ".request.size") else none) ∧
    h.rpcResponseSize = (if c.instrumentSizes then some (rolePrefix b ++ ".response.size") else none) ∧
    meter.int64Counter (rolePrefix b ++ ".requests_per_rpc") "1" = Except.ok () ∧
    meter.int64Counter (rolePrefix b ++ ".responses_per_rpc") "1" = Except.ok () ∧
    (c.instrumentLatency = true →
      meter.float64Histogram (rolePrefix b ++ ".duration") "ms" = Except.ok ()) ∧
    (c.instrumentSizes = true →
      meter.int64Histogram (rolePrefix b ++ ".request.size") "By" = Except.ok () ∧
      meter.int64Histogram (rolePrefix b ++ ".response.size") "By" = Except.ok ()) := by
  cases hL : c.instrumentLatency <;> cases hS : c.instrumentSizes <;>
    simp only [newHandlerWith, hL, hS, Bool.false_eq_true, if_true, if_false,
      exceptBind_eq_ok, pure, Except.pure, Except.ok.injEq] at hok
  · obtain ⟨⟨⟩, h1, ⟨⟩, h2, a, ha, a1, ha1, heq⟩ := hok
    subst ha; subst ha1; subst heq
    refine ⟨rfl, rfl, rfl, ?_, ?_, ?_, h1, h2, ?_, ?_⟩ <;> simp [hL, hS]
  · obtain ⟨⟨⟩, h1, ⟨⟩, h2, a, ha, ⟨⟩, h3, ⟨⟩, h4, a3, ha3, heq⟩ := hok
    subst ha; subst ha3; subst heq
    refine ⟨rfl, rfl, rfl, ?_, ?_, ?_, h1, h2, ?_, ?_⟩ <;> simp [hL, hS, h3, h4]
  · obtain ⟨⟨⟩, h1, ⟨⟩, h2, ⟨⟩, h3, a, ha, a1, ha1, heq⟩ := hok
    subst ha; subst ha1; subst heq
    refine ⟨rfl, rfl, rfl, ?_, ?_, ?_, h1, h2, ?_, ?_⟩ <;> simp [hL, hS, h3]
  · obtain ⟨⟨⟩, h1, ⟨⟩, h2, ⟨⟩, h3, a, ha, ⟨⟩, h4, ⟨⟩, h5, a3, ha3, heq⟩ := hok
    subst ha; subst ha3; subst heq
    refine ⟨rfl, rfl, rfl, ?_, ?_, ?_, h1, h2, ?_, ?_⟩ <;> simp [hL, hS, h3, h4, h5]

theorem newHandlerWith_error (meter : Meter) (b : Bool) (c : Config) (e : String)
    (herr : newHandlerWith meter b c = Except.error e) :
    meter.int64Counter (rolePrefix b ++ ".requests_per_rpc") "1" = Except.error e ∨
    meter.int64Counter (rolePrefix b ++ ".responses_per_rpc") "1" = Except.error e ∨
    (c.instrumentLatency = true ∧
      meter.float64Histogram (rolePrefix b ++ ".duration") "ms" = Except.error e) ∨
    (c.instrumentSizes = true ∧
      (meter.int64Histogram (rolePrefix b ++ ".request.size") "By" = Except.error e ∨
       meter.int64Histogram (rolePrefix b ++ ".response.size") "By" = Except.error e)) := by
  cases hL : c.instrumentLatency <;> cases hS : c.instrumentSizes <;>
    simp only [newHandlerWith, hL, hS, Bool.false_eq_true, if_true, if_false,
      exceptBind_eq_error, exceptBind_eq_ok, pure, Except.pure, Except.ok.injEq,
      reduceCtorEq, exists_eq_left, exists_eq_left', false_or, or_false,
      false_and, and_false, exists_false] at herr <;>
    tauto


/-! ### Claim theorems -/

/-- C3: status derivation maps a nil completion error to the canonical OK
status (numeric code 0); extracts code and message from an error carrying
a recognized structured RPC status; and for any other (opaque) error
falls back to the Internal numeric code (13) with the error's textual
description as the message. -/
theorem c3_status_derivation :
    (getRPCStatus none = grpcStatusOK ∧ grpcStatusOK.code = 0) ∧
    (∀ c m, getRPCStatus (some (.statusErr c m)) = { code := c, message := m }) ∧
    (∀ e, statusFromError e = none →
      getRPCStatus (some e) = { code := 13, message := e.errorString }) :=
  ⟨⟨rfl, rfl⟩, fun _ _ => rfl, fun e he => by
    cases e with
    | statusErr c m => simp [statusFromError] at he
    | opaqueErr m => rfl⟩

/-- Witness for `c3_status_derivation` at the opaque error "boom". -/
theorem c3_status_derivation_witness :
    statusFromError (GoError.opaqueErr "boom") = none ∧
    getRPCStatus (some (GoError.opaqueErr "boom")) = { code := 13, message := "boom" } :=
  ⟨rfl, c3_status_derivation.2.2 (GoError.opaqueErr "boom") rfl⟩

/-- C6: every lifecycle event delivered with a context carrying no
correlation record is a silent no-op: no counter mutation, no measurement
to any instrument, no diagnostic, and a normal return. -/
theorem c6_missing_record_noop (h : Handler) (rs : RPCStats) :
    handleRPC h none rs = { info := none, measurements := [], diagnostics := [] } := rfl

/-- C9: header events (inbound and outbound), trailer events (inbound and
outbound) and the begin event, delivered with a valid correlation record,
leave every field of the record unchanged and submit no measurement. -/
theorem c9_ignored_events (h : Handler) (ri : RpcInfo) :
    handleRPC h (some ri) .inHeader = { info := some ri, measurements := [], diagnostics := [] } ∧
    handleRPC h (some ri) .outHeader = { info := some ri, measurements := [], diagnostics := [] } ∧
    handleRPC h (some ri) .inTrailer = { info := some ri, measurements := [], diagnostics := [] } ∧
    handleRPC h (some ri) .outTrailer = { info := some ri, measurements := [], diagnostics := [] } ∧
    handleRPC h (some ri) .beginStats = { info := some ri, measurements := [], diagnostics := [] } :=
  ⟨rfl, rfl, rfl, rfl, rfl⟩

/-- Counterexample to C4 as stated: for a structured error carrying the
NotFound status code, the numeric status-code attribute the code derives
is 5, not 3. -/
theorem c4_counterexample :
    KeyValue.mk "rpc.grpc.status_code" (.int 5) ∈
      getAttributes "/S/M" (some (.statusErr codeNotFound "nope")) ∧
    KeyValue.mk "rpc.grpc.status_code" (.int 3) ∉
      getAttributes "/S/M" (some (.statusErr codeNotFound "nope")) ∧
    KeyValue.mk "rpc.grpc.status" (.str "NotFound") ∈
      getAttributes "/S/M" (some (.statusErr codeNotFound "nope")) := by
  decide

/-- C4 (amended): a structured RPC error carrying the NotFound status
code derives an attribute set whose numeric status-code attribute equals
5 and whose status-name attribute equals "NotFound", for every method
name and error message. -/
theorem c4_notFound_attributes (name msg : String) :
    KeyValue.mk "rpc.grpc.status_code" (.int 5) ∈
      getAttributes name (some (.statusErr codeNotFound msg)) ∧
    KeyValue.mk "rpc.grpc.status" (.str "NotFound") ∈
      getAttributes name (some (.statusErr codeNotFound msg)) := by
  constructor <;> (simp only [getAttributes]; split <;>
    simp [getRPCStatus, statusFromError, codeNotFound, codeString])



/-- Counterexample to C2 as stated: "a/b" splits into exactly two
non-empty segments after stripping a leading slash (there is none to
strip), yet the code omits the service and method attributes, because it
requires a three-way split on '/'. -/
theorem c2_counterexample :
    specMethodShape "a/b" = true ∧
    hasAttrKey (getAttributes "a/b" none) "rpc.service" = false ∧
    hasAttrKey (getAttributes "a/b" none) "rpc.method" = false := by
  decide

/-- C2 (amended): the derived attribute set contains the service-name and
method-name attributes exactly when the method name splits on '/' into
exactly three segments (i.e. contains exactly two '/' separators, with a
leading slash producing an empty first segment and segments allowed to be
empty), yielding service = second segment and method = third segment;
for any other shape those two attributes are absent; derivation always
succeeds, producing the three base attributes. -/
theorem c2_service_method_attributes (name : String) (err : Option GoError) :
    (hasAttrKey (getAttributes name err) "rpc.service" = true ↔
      (goSplit name '/').length = 3) ∧
    (hasAttrKey (getAttributes name err) "rpc.method" = true ↔
      (goSplit name '/').length = 3) ∧
    ((goSplit name '/').length = 3 →
      KeyValue.mk "rpc.service" (.str ((goSplit name '/').getD 1 "")) ∈
        getAttributes name err ∧
      KeyValue.mk "rpc.method" (.str ((goSplit name '/').getD 2 "")) ∈
        getAttributes name err) ∧
    (getAttributes name err).length =
      (if (goSplit name '/').length = 3 then 5 else 3) := by
  refine ⟨?_, ?_, ?_, ?_⟩ <;>
    (simp only [getAttributes]; split <;> simp [hasAttrKey]) <;> tauto

/-- Witness for `c2_service_method_attributes` at the well-formed method
name "/S/M". -/
theorem c2_service_method_attributes_witness :
    (goSplit "/S/M" '/').length = 3 ∧
    (KeyValue.mk "rpc.service" (.str "S") ∈ getAttributes "/S/M" none ∧
     KeyValue.mk "rpc.method" (.str "M") ∈ getAttributes "/S/M" none) :=
  ⟨by decide, (c2_service_method_attributes "/S/M" none).2.2.1 (by decide)⟩



/-- C5: when the terminal end event carries a non-nil error, the values
added to the requests/responses counters are exactly the payload message
counts accumulated in the correlation record (role-inverted as always),
and they coincide with the values the no-error case would emit: the
counters are not zeroed or altered because of the error. -/
theorem c5_error_keeps_counts (h : Handler) (ri : RpcInfo) (e : GoError) :
    (handleRPC h (some ri) (.endStats (some e))).measurements.filter
        Measurement.isCounterAdd =
      [ Measurement.counterAdd h.rpcRequestsPerRPC
          (if h.isClient then ri.sentMsgs else ri.recvMsgs)
          (getAttributes ri.fullMethodName (some e))
      , Measurement.counterAdd h.rpcResponsesPerRPC
          (if h.isClient then ri.recvMsgs else ri.sentMsgs)
          (getAttributes ri.fullMethodName (some e)) ] ∧
    (handleRPC h (some ri) (.endStats (some e))).measurements.filterMap
        Measurement.addedCounterValue =
      (handleRPC h (some ri) (.endStats none)).measurements.filterMap
        Measurement.addedCounterValue := by
  by_cases hc : h.isClient = true <;>
    cases hd : h.rpcDuration <;> cases hq : h.rpcRequestSize <;>
      cases hs : h.rpcResponseSize <;>
    simp [handleRPC, hc, hd, hq, hs, Measurement.isCounterAdd,
      Measurement.addedCounterValue, List.filter, List.filterMap]

/-- C7: with size histograms provisioned, the terminal end event records
into the request-size histogram the accumulated sent-byte counter on a
client-role handler and the accumulated received-byte counter on a
server-role handler, and into the response-size histogram the mirror
counter — the same role inversion as the message counters. -/
theorem c7_size_histograms_role_inversion (h : Handler) (ri : RpcInfo)
    (err : Option GoError) (reqInst respInst : String)
    (hreq : h.rpcRequestSize = some reqInst)
    (hresp : h.rpcResponseSize = some respInst) :
    Measurement.histRecord reqInst (if h.isClient then ri.sentBytes else ri.recvBytes)
        (getAttributes ri.fullMethodName err) ∈
      (handleRPC h (some ri) (.endStats err)).measurements ∧
    Measurement.histRecord respInst (if h.isClient then ri.recvBytes else ri.sentBytes)
        (getAttributes ri.fullMethodName err) ∈
      (handleRPC h (some ri) (.endStats err)).measurements := by
  by_cases hc : h.isClient = true <;> cases hd : h.rpcDuration <;>
    simp [handleRPC, hc, hd, hreq, hresp]

/-- Witness for `c7_size_histograms_role_inversion` on the fully
provisioned client handler. -/
theorem c7_size_histograms_role_inversion_witness :
    clientHandlerFull.rpcRequestSize = some "rpc.client.request.size" ∧
    (Measurement.histRecord "rpc.client.request.size"
        (if clientHandlerFull.isClient then (tagRPC "/S/M").sentBytes
         else (tagRPC "/S/M").recvBytes)
        (getAttributes "/S/M" none) ∈
      (handleRPC clientHandlerFull (some (tagRPC "/S/M")) (.endStats none)).measurements ∧
     Measurement.histRecord "rpc.client.response.size"
        (if clientHandlerFull.isClient then (tagRPC "/S/M").recvBytes
         else (tagRPC "/S/M").sentBytes)
        (getAttributes "/S/M" none) ∈
      (handleRPC clientHandlerFull (some (tagRPC "/S/M")) (.endStats none)).measurements) :=
  ⟨rfl, c7_size_histograms_role_inversion clientHandlerFull (tagRPC "/S/M") none
    "rpc.client.request.size" "rpc.client.response.size" rfl rfl⟩



/-- C1: starting from a fresh correlation record, after any terminal-free
event sequence containing N inbound-payload and M outbound-payload events
(each below the int64 bound), the terminal end event adds N to
requests_per_rpc and M to responses_per_rpc on a server-role handler, and
M to requests_per_rpc and N to responses_per_rpc on a client-role handler
(role inversion); these are the only counter additions of the attempt. -/
theorem c1_counters_role_inversion (h : Handler) (name : String)
    (err : Option GoError) (evs : List RPCStats)
    (hterm : ∀ e ∈ evs, e.isTerminal = false)
    (hn : (countIn evs : Int) < 2 ^ 63) (hm : (countOut evs : Int) < 2 ^ 63) :
    (processEvents h (some (tagRPC name)) (evs ++ [.endStats err])).measurements.filter
        Measurement.isCounterAdd =
      (if h.isClient then
        [ Measurement.counterAdd h.rpcRequestsPerRPC (countOut evs) (getAttributes name err)
        , Measurement.counterAdd h.rpcResponsesPerRPC (countIn evs) (getAttributes name err) ]
      else
        [ Measurement.counterAdd h.rpcRequestsPerRPC (countIn evs) (getAttributes name err)
        , Measurement.counterAdd h.rpcResponsesPerRPC (countOut evs) (getAttributes name err) ]) := by
  obtain ⟨ri', p1, p2, p3, p4, p5⟩ :=
    processEvents_counts h evs (tagRPC name) hterm (by simp [tagRPC, wrap64_zero])
      (by simp [tagRPC, wrap64_zero])
  have hrecv : ri'.recvMsgs = (countIn evs : Int) := by
    rw [p3]
    simp only [tagRPC, Int.zero_add]
    exact wrap64_idem_of_nonneg _ (Int.natCast_nonneg _) hn
  have hsent : ri'.sentMsgs = (countOut evs : Int) := by
    rw [p4]
    simp only [tagRPC, Int.zero_add]
    exact wrap64_idem_of_nonneg _ (Int.natCast_nonneg _) hm
  have hname : ri'.fullMethodName = name := by rw [p2]; rfl
  rw [processEvents_append, p1]
  by_cases hc : h.isClient = true <;>
    cases hd : h.rpcDuration <;> cases hq : h.rpcRequestSize <;>
      cases hs : h.rpcResponseSize <;>
    simp [processEvents, handleRPC, hc, hd, hq, hs, p5, hrecv, hsent, hname,
      Measurement.isCounterAdd, List.filter]

/-- Witness for `c1_counters_role_inversion`: one inbound and two
outbound payloads on a server handler. -/
theorem c1_counters_role_inversion_witness :
    (∀ e ∈ [RPCStats.inPayload 4, RPCStats.outPayload 7, RPCStats.outPayload 2],
      e.isTerminal = false) ∧
    (processEvents serverHandler (some (tagRPC "/S/M"))
        ([RPCStats.inPayload 4, RPCStats.outPayload 7, RPCStats.outPayload 2] ++
          [.endStats none])).measurements.filter Measurement.isCounterAdd =
      (if serverHandler.isClient then
        [ Measurement.counterAdd serverHandler.rpcRequestsPerRPC
            (countOut [RPCStats.inPayload 4, RPCStats.outPayload 7, RPCStats.outPayload 2])
            (getAttributes "/S/M" none)
        , Measurement.counterAdd serverHandler.rpcResponsesPerRPC
            (countIn [RPCStats.inPayload 4, RPCStats.outPayload 7, RPCStats.outPayload 2])
            (getAttributes "/S/M" none) ]
      else
        [ Measurement.counterAdd serverHandler.rpcRequestsPerRPC
            (countIn [RPCStats.inPayload 4, RPCStats.outPayload 7, RPCStats.outPayload 2])
            (getAttributes "/S/M" none)
        , Measurement.counterAdd serverHandler.rpcResponsesPerRPC
            (countOut [RPCStats.inPayload 4, RPCStats.outPayload 7, RPCStats.outPayload 2])
            (getAttributes "/S/M" none) ]) :=
  ⟨by decide, c1_counters_role_inversion serverHandler "/S/M" none
    [RPCStats.inPayload 4, RPCStats.outPayload 7, RPCStats.outPayload 2]
    (by decide) (by decide) (by decide)⟩



/-- C8: construction always registers the two per-RPC counters; the
duration histogram exists on the handler exactly when the latency option
is enabled and the two size histograms exactly when the sizes option is
enabled (both options default to off); and when the metrics backend
rejects an instrument creation, construction returns that backend error
(so no handler is produced). -/
theorem c8_construction (gp : MeterProvider) (isClient : Bool) (opts : List GOption) :
    ((applyOptions []).instrumentLatency = false ∧
     (applyOptions []).instrumentSizes = false) ∧
    (∀ h, newHandler gp isClient opts = Except.ok h →
      (configMeter gp (applyOptions opts)).int64Counter
          (rolePrefix isClient ++ ".requests_per_rpc") "1" = Except.ok () ∧
      (configMeter gp (applyOptions opts)).int64Counter
          (rolePrefix isClient ++ ".responses_per_rpc") "1" = Except.ok () ∧
      h.rpcRequestsPerRPC = rolePrefix isClient ++ ".requests_per_rpc" ∧
      h.rpcResponsesPerRPC = rolePrefix isClient ++ ".responses_per_rpc" ∧
      h.rpcDuration.isSome = (applyOptions opts).instrumentLatency ∧
      h.rpcRequestSize.isSome = (applyOptions opts).instrumentSizes ∧
      h.rpcResponseSize.isSome = (applyOptions opts).instrumentSizes) ∧
    (∀ e, newHandler gp isClient opts = Except.error e →
      (configMeter gp (applyOptions opts)).int64Counter
          (rolePrefix isClient ++ ".requests_per_rpc") "1" = Except.error e ∨
      (configMeter gp (applyOptions opts)).int64Counter
          (rolePrefix isClient ++ ".responses_per_rpc") "1" = Except.error e ∨
      ((applyOptions opts).instrumentLatency = true ∧
        (configMeter gp (applyOptions opts)).float64Histogram
          (rolePrefix isClient ++ ".duration") "ms" = Except.error e) ∨
      ((applyOptions opts).instrumentSizes = true ∧
        ((configMeter gp (applyOptions opts)).int64Histogram
            (rolePrefix isClient ++ ".request.size") "By" = Except.error e ∨
         (configMeter gp (applyOptions opts)).int64Histogram
            (rolePrefix isClient ++ ".response.size") "By" = Except.error e))) := by
  refine ⟨⟨rfl, rfl⟩, ?_, ?_⟩
  · intro h hok
    obtain ⟨q1, q2, q3, q4, q5, q6, q7, q8, q9, q10⟩ :=
      newHandlerWith_ok (configMeter gp (applyOptions opts)) isClient
        (applyOptions opts) h hok
    refine ⟨q7, q8, q2, q3, ?_, ?_, ?_⟩ <;>
      cases hL : (applyOptions opts).instrumentLatency <;>
      cases hS : (applyOptions opts).instrumentSizes <;>
      simp [q4, q5, q6, hL, hS]
  · intro e herr
    exact newHandlerWith_error (configMeter gp (applyOptions opts)) isClient
      (applyOptions opts) e herr

/-- Witness for `c8_construction`: a default server handler on an
accepting backend, and a failing construction on a backend that rejects
histograms when the latency option is on. -/
theorem c8_construction_witness :
    (serverHandler.rpcDuration.isSome = (applyOptions []).instrumentLatency ∧
     serverHandler.rpcRequestSize.isSome = (applyOptions []).instrumentSizes ∧
     serverHandler.rpcResponseSize.isSome = (applyOptions []).instrumentSizes) ∧
    ((configMeter noHistProvider (applyOptions [withInstrumentLatency true])).int64Counter
        (rolePrefix false ++ ".requests_per_rpc") "1" = Except.error "histograms unsupported" ∨
     (configMeter noHistProvider (applyOptions [withInstrumentLatency true])).int64Counter
        (rolePrefix false ++ ".responses_per_rpc") "1" = Except.error "histograms unsupported" ∨
     ((applyOptions [withInstrumentLatency true]).instrumentLatency = true ∧
       (configMeter noHistProvider (applyOptions [withInstrumentLatency true])).float64Histogram
        (rolePrefix false ++ ".duration") "ms" = Except.error "histograms unsupported") ∨
     ((applyOptions [withInstrumentLatency true]).instrumentSizes = true ∧
       ((configMeter noHistProvider (applyOptions [withInstrumentLatency true])).int64Histogram
          (rolePrefix false ++ ".request.size") "By" = Except.error "histograms unsupported" ∨
        (configMeter noHistProvider (applyOptions [withInstrumentLatency true])).int64Histogram
          (rolePrefix false ++ ".response.size") "By" = Except.error "histograms unsupported"))) :=
  ⟨((c8_construction okProvider false []).2.1 serverHandler rfl).2.2.2.2,
   (c8_construction noHistProvider false [withInstrumentLatency true]).2.2
     "histograms unsupported" rfl⟩



/-- C10: on every successfully constructed handler the request-size
histogram is present exactly when the response-size histogram is (both
gated by the single sizes flag), and consequently an inbound payload
accumulates received bytes exactly when the terminal event reads them
into a size histogram, and likewise for outbound sent bytes: either both
payload kinds accumulate bytes and the end event records both accumulated
byte counters into size histograms, or neither accumulates and the end
event records no histogram value at all. -/
theorem c10_size_instruments_paired (gp : MeterProvider) (b : Bool)
    (opts : List GOption) (h : Handler)
    (hok : newHandler gp b opts = Except.ok h) :
    h.rpcRequestSize.isSome = h.rpcResponseSize.isSome ∧
    ∀ (ri : RpcInfo) (len : Int) (err : Option GoError),
      ((handleRPC h (some ri) (.inPayload len)).info =
          some { ri with recvMsgs := addInt64 ri.recvMsgs 1
                         recvBytes := addInt64 ri.recvBytes len } ∧
        (handleRPC h (some ri) (.outPayload len)).info =
          some { ri with sentMsgs := addInt64 ri.sentMsgs 1
                         sentBytes := addInt64 ri.sentBytes len } ∧
        (∃ inst, Measurement.histRecord inst ri.recvBytes
            (getAttributes ri.fullMethodName err) ∈
          (handleRPC h (some ri) (.endStats err)).measurements) ∧
        (∃ inst, Measurement.histRecord inst ri.sentBytes
            (getAttributes ri.fullMethodName err) ∈
          (handleRPC h (some ri) (.endStats err)).measurements))
      ∨
      ((handleRPC h (some ri) (.inPayload len)).info =
          some { ri with recvMsgs := addInt64 ri.recvMsgs 1 } ∧
        (handleRPC h (some ri) (.outPayload len)).info =
          some { ri with sentMsgs := addInt64 ri.sentMsgs 1 } ∧
        ∀ inst v a, Measurement.histRecord inst v a ∉
          (handleRPC h (some ri) (.endStats err)).measurements) := by
  obtain ⟨q1, q2, q3, q4, q5, q6, q7, q8, q9, q10⟩ :=
    newHandlerWith_ok (configMeter gp (applyOptions opts)) b (applyOptions opts) h hok
  constructor
  · rw [q5, q6]
    cases hS : (applyOptions opts).instrumentSizes <;> simp [hS]
  · intro ri len err
    cases hS : (applyOptions opts).instrumentSizes
    · right
      simp only [hS, Bool.false_eq_true, if_false] at q5 q6
      refine ⟨by simp [handleRPC, q5], by simp [handleRPC, q6], ?_⟩
      intro inst v a hmem
      by_cases hc : h.isClient = true <;>
        cases hL : (applyOptions opts).instrumentLatency <;>
          simp only [hL, Bool.false_eq_true, if_false, if_true] at q4 <;>
          simp [handleRPC, hc, q4, q5, q6] at hmem
    · left
      simp only [hS, if_true] at q5 q6
      refine ⟨by simp [handleRPC, q5], by simp [handleRPC, q6], ?_, ?_⟩ <;>
        by_cases hc : h.isClient = true
      · exact ⟨rolePrefix b ++ ".response.size",
          by cases hL : (applyOptions opts).instrumentLatency <;>
            simp only [hL, Bool.false_eq_true, if_false, if_true] at q4 <;>
            simp [handleRPC, hc, q4, q5, q6]⟩
      · exact ⟨rolePrefix b ++ ".request.size",
          by cases hL : (applyOptions opts).instrumentLatency <;>
            simp only [hL, Bool.false_eq_true, if_false, if_true] at q4 <;>
            simp [handleRPC, hc, q4, q5, q6]⟩
      · exact ⟨rolePrefix b ++ ".request.size",
          by cases hL : (applyOptions opts).instrumentLatency <;>
            simp only [hL, Bool.false_eq_true, if_false, if_true] at q4 <;>
            simp [handleRPC, hc, q4, q5, q6]⟩
      · exact ⟨rolePrefix b ++ ".response.size",
          by cases hL : (applyOptions opts).instrumentLatency <;>
            simp only [hL, Bool.false_eq_true, if_false, if_true] at q4 <;>
            simp [handleRPC, hc, q4, q5, q6]⟩

/-- Witness for `c10_size_instruments_paired` on the fully provisioned
client handler. -/
theorem c10_size_instruments_paired_witness :
    clientHandlerFull.rpcRequestSize.isSome = clientHandlerFull.rpcResponseSize.isSome :=
  (c10_size_instruments_paired okProvider true
    [withInstrumentSizes true, withInstrumentLatency true] clientHandlerFull rfl).1


end Grpcmetrics
